import Mathlib

/-!
Shallow embedding of the RE4-APMod attach logic (src/dllmain/dllmain.cpp).

The module's only orchestration code is `DllMain`, which on
`DLL_PROCESS_ATTACH` stores the module handle, calls `Init_Wrappers()`,
installs the exception handler (`re4t::init::ExceptionHandler()`), and then
runs `Init_Main()`.  `Init_Main` performs, in order: a greeting log, the
game-version resolution (`re4t::init::Game()`, with early return on
failure), first-run creation of `steam_appid.txt` (guarded by absence of
that file and presence of `bio4.exe`), startup-fact logging, the HD-Project
probe (existence of two marker files under `<canonical parent>\BIO4\snd\`)
with conditional `HDProject()` activation, `pInput->init()` (return value
discarded), and `cfg->ReadConnection()`.

External collaborators (Game, HDProject, input, settings, logging) are
modelled as oracles in `Env`: a boolean outcome where the code consults one
(`gameOk`), and a "raises an exception" flag where the collaborator could
throw (C++ has no containment barrier inside `Init_Main`, so a throw
aborts the rest of the sequence; `raised` records that it escaped).
Filesystem queries follow `std::filesystem` semantics: `exists` returns a
boolean but can also fail with an error (modelled per-path by `fsErr`),
and `canonical` can fail (`canonicalErr`).  The observable behaviour is a
trace of calls/effects (`Ev`), the resulting file contents, the
`bIsUsingHDProject` flag, and whether an exception escaped.
-/

/-- Calls and externally visible effects performed during attach, in
program order of src/dllmain/dllmain.cpp. -/
inductive Ev
  | storeModuleHandle
  | initWrappers
  | exceptionHandler
  | conLogThanks
  | gameInit
  | artifactCreate
  | logFacts
  | conLogHD
  | logHD
  | hdProject
  | inputInit
  | readConnection
deriving DecidableEq, Repr

/-- The `fdwReason` argument of `DllMain`. -/
inductive Reason
  | processAttach
  | threadAttach
  | threadDetach
  | processDetach
deriving DecidableEq, Repr

/-- Ambient state and collaborator oracles for one run of the attach
sequence.  `fs` maps a path to the contents of the file there (`none` =
absent); `fsErr p` says an `std::filesystem::exists(p)` call fails with a
filesystem error (instead of returning a boolean); `canonicalErr` says
`std::filesystem::canonical(rootPath)` fails; `rootParent` is the string
`canonical(rootPath).parent_path().string()` would produce; `gameOk` is
the return value of `re4t::init::Game()`; `createFails` says the
`std::ofstream` creation of the artifact silently fails; `inputInitOk` is
the value `pInput->init()` returns (the source discards it, so no
definition below reads this field); the `...Raises` fields say the
corresponding collaborator call throws; `hdFlag0` is the value of
`cfg->bIsUsingHDProject` when the run starts. -/
structure Env where
  fs : String → Option String
  fsErr : String → Bool
  canonicalErr : Bool
  rootParent : String
  gameOk : Bool
  createFails : Bool
  inputInitOk : Bool
  inputInitRaises : Bool
  hdProjectRaises : Bool
  readConnectionRaises : Bool
  hdFlag0 : Bool

/-- Path of the first-run artifact (dllmain.cpp line 26). -/
def appidPath : String := "steam_appid.txt"

/-- Path of the distribution marker file (dllmain.cpp line 26). -/
def bio4ExePath : String := "bio4.exe"

/-- `bio4Path` of dllmain.cpp line 43: sibling `BIO4` directory of the
canonical parent of the install root. -/
def bio4Dir (rootParent : String) : String := rootParent ++ "\\BIO4\\"

/-- `doorse012_xsb_path` of dllmain.cpp line 44. -/
def xsbPath (rootParent : String) : String :=
  bio4Dir rootParent ++ "snd\\doorse012.xsb"

/-- `doorse012_xwb_path` of dllmain.cpp line 45. -/
def xwbPath (rootParent : String) : String :=
  bio4Dir rootParent ++ "snd\\doorse012.xwb"

/-- Write of the fixed artifact contents at `appidPath`
(dllmain.cpp lines 28-30). -/
def fsUpdate (f : String → Option String) : String → Option String :=
  fun q => if q = appidPath then some "254700" else f q

/-- Mutable state threaded through `Init_Main`: the event trace so far,
the filesystem, and `cfg->bIsUsingHDProject`. -/
structure St where
  trace : List Ev
  fs : String → Option String
  hdFlag : Bool

/-- Append one event to the trace. -/
def emit (s : St) (v : Ev) : St := ⟨s.trace ++ [v], s.fs, s.hdFlag⟩

/-- Result of `Init_Main`: final trace, filesystem, flag, and whether a
C++ exception escaped the function (`raised`). -/
structure MainRes where
  trace : List Ev
  fs : String → Option String
  hdFlag : Bool
  raised : Bool

/-- dllmain.cpp lines 25-31: `if (!exists("steam_appid.txt") &&
exists("bio4.exe")) { ofstream appid("steam_appid.txt"); appid << "254700"; }`.
`&&` short-circuits, each `exists` may fail with a filesystem error, and a
failed `ofstream` is silently ignored (the stream's state is never
checked).  Second component of the result: an exception escaped. -/
def artifactStep (e : Env) (s : St) : St × Bool :=
  if e.fsErr appidPath = true then (s, true)
  else if (s.fs appidPath).isSome = true then (s, false)
  else if e.fsErr bio4ExePath = true then (s, true)
  else if (s.fs bio4ExePath).isSome = true then
    if e.createFails = true then (s, false)
    else (⟨s.trace ++ [.artifactCreate], fsUpdate s.fs, s.hdFlag⟩, false)
  else (s, false)

/-- dllmain.cpp lines 42-57: derive the two marker paths from
`canonical(rootPath).parent_path()` and, if both exist, log and activate
the HD Project (`cfg->bIsUsingHDProject = true; re4ap::init::HDProject()`).
`canonical` and each `exists` may fail with a filesystem error;
`HDProject()` may throw after the flag is set. -/
def probeStep (e : Env) (s : St) : St × Bool :=
  if e.canonicalErr = true then (s, true)
  else if e.fsErr (xsbPath e.rootParent) = true then (s, true)
  else if (s.fs (xsbPath e.rootParent)).isSome = false then (s, false)
  else if e.fsErr (xwbPath e.rootParent) = true then (s, true)
  else if (s.fs (xwbPath e.rootParent)).isSome = false then (s, false)
  else (⟨s.trace ++ [.conLogHD, .logHD, .hdProject], s.fs, true⟩,
        e.hdProjectRaises)

/-- dllmain.cpp line 60: `pInput->init();` — the call happens, its boolean
result is discarded, and only a thrown exception interrupts the flow. -/
def inputStep (e : Env) (s : St) : St × Bool :=
  (emit s .inputInit, e.inputInitRaises)

/-- dllmain.cpp line 63: `re4ap::cfg->ReadConnection();`. -/
def configStep (e : Env) (s : St) : St × Bool :=
  (emit s .readConnection, e.readConnectionRaises)

/-- Continuation of `Init_Main` after the HD-Project block: input
bring-up (line 60) then settings load (line 63); a throw in either spot
aborts what follows and escapes. -/
def afterProbe (e : Env) (s3 : St) : MainRes :=
  match inputStep e s3 with
  | (s, true) => ⟨s.trace, s.fs, s.hdFlag, true⟩
  | (s4, false) =>
    match configStep e s4 with
    | (s5, r) => ⟨s5.trace, s5.fs, s5.hdFlag, r⟩

/-- Continuation of `Init_Main` after artifact provisioning:
startup-fact logging (lines 33-40, one `logFacts` event), then the
HD-Project probe block, then the rest. -/
def afterArtifact (e : Env) (s1 : St) : MainRes :=
  match probeStep e (emit s1 .logFacts) with
  | (s, true) => ⟨s.trace, s.fs, s.hdFlag, true⟩
  | (s3, false) => afterProbe e s3

/-- dllmain.cpp lines 17-64, `Init_Main`: greeting log; early return when
`re4t::init::Game()` fails; artifact provisioning; then the rest of the
sequence.  A thrown exception anywhere aborts the rest and escapes
(`raised = true`): the function contains no handler. -/
def Init_Main (e : Env) : MainRes :=
  if e.gameOk = false then
    ⟨[.conLogThanks, .gameInit], e.fs, e.hdFlag0, false⟩
  else
    match artifactStep e ⟨[.conLogThanks, .gameInit], e.fs, e.hdFlag0⟩ with
    | (s, true) => ⟨s.trace, s.fs, s.hdFlag, true⟩
    | (s1, false) => afterArtifact e s1

/-- Result of one `DllMain` invocation: trace, filesystem, flag, the
`BOOL` it returns, and whether an exception escaped it. -/
structure DllRes where
  trace : List Ev
  fs : String → Option String
  hdFlag : Bool
  ret : Bool
  raised : Bool

/-- The three actions `DllMain` performs on `DLL_PROCESS_ATTACH` before
`Init_Main()` (dllmain.cpp lines 75-79). -/
def wrapPhase : List Ev := [.storeModuleHandle, .initWrappers, .exceptionHandler]

/-- dllmain.cpp lines 67-89, `DllMain`: on `DLL_PROCESS_ATTACH` it stores
the module handle, calls `Init_Wrappers()`, installs the exception
handler, runs `Init_Main()`, and returns `true`; every other reason code
falls through to `return true` with no work. -/
def DllMain (e : Env) (r : Reason) : DllRes :=
  match r with
  | .processAttach =>
    let m := Init_Main e
    ⟨wrapPhase ++ m.trace, m.fs, m.hdFlag, true, m.raised⟩
  | _ => ⟨[], e.fs, e.hdFlag0, true, false⟩

/-- The environment as a second process (or a duplicate attach
notification) would see it after one attach: the filesystem and the
persistent `bIsUsingHDProject` flag carry over, the oracles stay fixed. -/
def secondEnv (e : Env) : Env :=
  ⟨(Init_Main e).fs, e.fsErr, e.canonicalErr, e.rootParent, e.gameOk,
   e.createFails, e.inputInitOk, e.inputInitRaises, e.hdProjectRaises,
   e.readConnectionRaises, (Init_Main e).hdFlag⟩

/-- A second attach invocation run against the state the first one left. -/
def secondAttach (e : Env) : DllRes := DllMain (secondEnv e) .processAttach

/-- Empty filesystem. -/
def fs0 : String → Option String := fun _ => none

/-- Error-free filesystem access. -/
def noErr : String → Bool := fun _ => false

/-- A concrete install-root parent directory used in witnesses. -/
def rootR : String := "C:\\games\\RE4"

/-- Baseline benign environment: empty filesystem, no errors, every
collaborator succeeds. -/
def env0 : Env := ⟨fs0, noErr, false, rootR, true, false, true, false, false, false, false⟩

/-!
Flattened characterization of `Init_Main`.  The sequential definition
above threads one `St` value through the steps; the lemmas in this
section re-express the final result as a decision tree over the oracle
fields, which the claim proofs then consume.
-/

/-- Flat form of `afterProbe`: trace/filesystem/flag after input
bring-up and settings load, starting from trace `tr`, filesystem `f`,
flag `flag`. -/
def inputTail (e : Env) (tr : List Ev) (f : String → Option String) (flag : Bool) : MainRes :=
  if e.inputInitRaises = true then ⟨tr ++ [.inputInit], f, flag, true⟩
  else ⟨tr ++ [.inputInit, .readConnection], f, flag, e.readConnectionRaises⟩

/-- Flat form of the HD-Project probe block followed by the rest of the
sequence. -/
def probeTail (e : Env) (tr : List Ev) (f : String → Option String) (flag : Bool) : MainRes :=
  if e.canonicalErr = true then ⟨tr, f, flag, true⟩
  else if e.fsErr (xsbPath e.rootParent) = true then ⟨tr, f, flag, true⟩
  else if (f (xsbPath e.rootParent)).isSome = false then inputTail e tr f flag
  else if e.fsErr (xwbPath e.rootParent) = true then ⟨tr, f, flag, true⟩
  else if (f (xwbPath e.rootParent)).isSome = false then inputTail e tr f flag
  else if e.hdProjectRaises = true then
    ⟨tr ++ [.conLogHD, .logHD, .hdProject], f, true, true⟩
  else inputTail e (tr ++ [.conLogHD, .logHD, .hdProject]) f true

/-- Flat decision tree equal to `Init_Main` (proved in
`initMain_eq_flat`). -/
def initFlat (e : Env) : MainRes :=
  if e.gameOk = false then ⟨[.conLogThanks, .gameInit], e.fs, e.hdFlag0, false⟩
  else if e.fsErr appidPath = true then ⟨[.conLogThanks, .gameInit], e.fs, e.hdFlag0, true⟩
  else if (e.fs appidPath).isSome = true then
    probeTail e [.conLogThanks, .gameInit, .logFacts] e.fs e.hdFlag0
  else if e.fsErr bio4ExePath = true then ⟨[.conLogThanks, .gameInit], e.fs, e.hdFlag0, true⟩
  else if (e.fs bio4ExePath).isSome = true then
    if e.createFails = true then
      probeTail e [.conLogThanks, .gameInit, .logFacts] e.fs e.hdFlag0
    else
      probeTail e [.conLogThanks, .gameInit, .artifactCreate, .logFacts] (fsUpdate e.fs) e.hdFlag0
  else probeTail e [.conLogThanks, .gameInit, .logFacts] e.fs e.hdFlag0

theorem afterProbe_eq (e : Env) (s3 : St) :
    afterProbe e s3 = inputTail e s3.trace s3.fs s3.hdFlag := by
  unfold afterProbe inputStep configStep emit inputTail
  cases h : e.inputInitRaises <;> simp

theorem afterArtifact_eq (e : Env) (s1 : St) :
    afterArtifact e s1 = probeTail e (s1.trace ++ [.logFacts]) s1.fs s1.hdFlag := by
  unfold afterArtifact probeStep emit probeTail
  split_ifs <;> (try cases h : e.hdProjectRaises) <;>
    simp_all [afterProbe_eq, inputTail]

theorem initMain_eq_flat (e : Env) : Init_Main e = initFlat e := by
  unfold Init_Main artifactStep initFlat
  split_ifs <;> simp_all [afterArtifact_eq, fsUpdate]

/-- Condition under which the run writes `steam_appid.txt`: the game
probe succeeded, the existence checks did not error, the artifact was
absent, the marker `bio4.exe` was present, and the stream write did not
silently fail. -/
def created (e : Env) : Bool :=
  e.gameOk && !e.fsErr appidPath && !(e.fs appidPath).isSome &&
  !e.fsErr bio4ExePath && (e.fs bio4ExePath).isSome && !e.createFails

/-- Condition under which the artifact block throws (a filesystem error
from one of its `exists` calls). -/
def artAborts (e : Env) : Bool :=
  e.fsErr appidPath || (!(e.fs appidPath).isSome && e.fsErr bio4ExePath)

/-- Filesystem contents after the artifact block. -/
def mainFs (e : Env) : String → Option String :=
  if created e = true then fsUpdate e.fs else e.fs

/-- Condition under which the probe finds both marker files (and so the
HD-Project block runs). -/
def probeHit (e : Env) (f : String → Option String) : Bool :=
  !e.canonicalErr && !e.fsErr (xsbPath e.rootParent) &&
  (f (xsbPath e.rootParent)).isSome && !e.fsErr (xwbPath e.rootParent) &&
  (f (xwbPath e.rootParent)).isSome

/-- Condition under which the probe block throws: `canonical` failed, an
`exists` call failed, or `HDProject()` itself threw. -/
def probeAborts (e : Env) (f : String → Option String) : Bool :=
  e.canonicalErr || e.fsErr (xsbPath e.rootParent) ||
  ((f (xsbPath e.rootParent)).isSome && e.fsErr (xwbPath e.rootParent)) ||
  (probeHit e f && e.hdProjectRaises)

theorem inputTail_mem (e : Env) (tr : List Ev) (f : String → Option String)
    (flag : Bool) (v : Ev) :
    v ∈ (inputTail e tr f flag).trace ↔
      (v ∈ tr ∨ v = .inputInit ∨ (v = .readConnection ∧ e.inputInitRaises = false)) := by
  unfold inputTail
  split_ifs <;> simp_all

theorem inputTail_fs (e : Env) (tr : List Ev) (f : String → Option String)
    (flag : Bool) : (inputTail e tr f flag).fs = f := by
  unfold inputTail; split_ifs <;> rfl

theorem inputTail_flag (e : Env) (tr : List Ev) (f : String → Option String)
    (flag : Bool) : (inputTail e tr f flag).hdFlag = flag := by
  unfold inputTail; split_ifs <;> rfl

theorem inputTail_raised (e : Env) (tr : List Ev) (f : String → Option String)
    (flag : Bool) :
    (inputTail e tr f flag).raised = (e.inputInitRaises || e.readConnectionRaises) := by
  unfold inputTail; split_ifs <;> simp_all

theorem probeTail_fs (e : Env) (tr : List Ev) (f : String → Option String)
    (flag : Bool) : (probeTail e tr f flag).fs = f := by
  unfold probeTail
  split_ifs <;> simp [inputTail_fs]

theorem probeTail_flag (e : Env) (tr : List Ev) (f : String → Option String)
    (flag : Bool) :
    (probeTail e tr f flag).hdFlag = (flag || probeHit e f) := by
  unfold probeTail probeHit
  split_ifs <;> simp_all [inputTail_flag, Option.ne_none_iff_isSome]

theorem probeTail_raised (e : Env) (tr : List Ev) (f : String → Option String)
    (flag : Bool) :
    (probeTail e tr f flag).raised =
      (probeAborts e f || e.inputInitRaises || e.readConnectionRaises) := by
  unfold probeTail probeAborts probeHit
  split_ifs <;> simp_all [inputTail_raised, Option.ne_none_iff_isSome]

theorem probeTail_mem (e : Env) (tr : List Ev) (f : String → Option String)
    (flag : Bool) (v : Ev) :
    v ∈ (probeTail e tr f flag).trace ↔
      (v ∈ tr ∨
       (probeHit e f = true ∧ (v = .conLogHD ∨ v = .logHD ∨ v = .hdProject)) ∨
       (probeAborts e f = false ∧
        (v = .inputInit ∨ (v = .readConnection ∧ e.inputInitRaises = false)))) := by
  unfold probeTail probeAborts probeHit
  split_ifs <;> simp_all [inputTail_mem, Option.ne_none_iff_isSome] <;> tauto

theorem initMain_fs_app (e : Env) (p : String) :
    (Init_Main e).fs p =
      if created e = true ∧ p = appidPath then some "254700" else e.fs p := by
  rw [initMain_eq_flat]
  unfold initFlat
  split_ifs <;>
    simp_all [probeTail_fs, created, fsUpdate, Option.ne_none_iff_isSome]

theorem initMain_flag (e : Env) :
    (Init_Main e).hdFlag =
      (e.hdFlag0 || (e.gameOk && !artAborts e && probeHit e (mainFs e))) := by
  rw [initMain_eq_flat]
  unfold initFlat
  split_ifs <;>
    simp_all [probeTail_flag, artAborts, mainFs, created, Option.ne_none_iff_isSome]

theorem initMain_raised (e : Env) :
    (Init_Main e).raised =
      (e.gameOk &&
        (artAborts e || probeAborts e (mainFs e) ||
         e.inputInitRaises || e.readConnectionRaises)) := by
  rw [initMain_eq_flat]
  unfold initFlat
  split_ifs <;>
    simp_all [probeTail_raised, artAborts, mainFs, created, Option.ne_none_iff_isSome]

theorem initMain_mem (e : Env) (v : Ev) :
    v ∈ (Init_Main e).trace ↔
      (v = .conLogThanks ∨ v = .gameInit ∨
       (e.gameOk = true ∧ artAborts e = false ∧
        (v = .logFacts ∨ (created e = true ∧ v = .artifactCreate) ∨
         (probeHit e (mainFs e) = true ∧
          (v = .conLogHD ∨ v = .logHD ∨ v = .hdProject)) ∨
         (probeAborts e (mainFs e) = false ∧
          (v = .inputInit ∨ (v = .readConnection ∧ e.inputInitRaises = false)))))) := by
  rw [initMain_eq_flat]
  unfold initFlat
  split_ifs <;>
    simp_all [probeTail_mem, artAborts, mainFs, created, Option.ne_none_iff_isSome] <;>
    tauto

theorem bio4_ne_appid : bio4ExePath ≠ appidPath := by decide

theorem xsb_ne_appid (r : String) : xsbPath r ≠ appidPath := by
  intro h
  have hl := congrArg String.length h
  simp only [xsbPath, bio4Dir, appidPath, String.length_append] at hl
  have h6 : ("\\BIO4\\" : String).length = 6 := rfl
  have h17 : ("snd\\doorse012.xsb" : String).length = 17 := rfl
  have h15 : ("steam_appid.txt" : String).length = 15 := rfl
  rw [h6, h17, h15] at hl
  omega

theorem xwb_ne_appid (r : String) : xwbPath r ≠ appidPath := by
  intro h
  have hl := congrArg String.length h
  simp only [xwbPath, bio4Dir, appidPath, String.length_append] at hl
  have h6 : ("\\BIO4\\" : String).length = 6 := rfl
  have h17 : ("snd\\doorse012.xwb" : String).length = 17 := rfl
  have h15 : ("steam_appid.txt" : String).length = 15 := rfl
  rw [h6, h17, h15] at hl
  omega

theorem mainFs_other (e : Env) (p : String) (hp : p ≠ appidPath) :
    mainFs e p = e.fs p := by
  unfold mainFs fsUpdate
  split_ifs <;> simp [hp]

theorem probeHit_mainFs (e : Env) : probeHit e (mainFs e) = probeHit e e.fs := by
  unfold probeHit
  rw [mainFs_other e _ (xsb_ne_appid _), mainFs_other e _ (xwb_ne_appid _)]

theorem probeAborts_mainFs (e : Env) :
    probeAborts e (mainFs e) = probeAborts e e.fs := by
  unfold probeAborts
  rw [mainFs_other e _ (xsb_ne_appid _), probeHit_mainFs]

/-!
Concrete environments used by counterexamples and witnesses.
-/

/-- Step 1 fails: `re4t::init::Game()` returns false. -/
def envGameFail : Env := ⟨fs0, noErr, false, rootR, false, false, true, false, false, false, false⟩

/-- `pInput->init()` returns false (and nothing throws). -/
def envNoInit : Env := ⟨fs0, noErr, false, rootR, true, false, false, false, false, false, false⟩

/-- Filesystem holding exactly the two HD-Project marker files. -/
def fsBoth : String → Option String :=
  fun p => if p = xsbPath rootR then some "hd"
           else if p = xwbPath rootR then some "hd" else none

/-- Both HD-Project markers present, everything succeeds. -/
def envHD : Env := ⟨fsBoth, noErr, false, rootR, true, false, true, false, false, false, false⟩

/-- Both HD-Project markers present and `HDProject()` throws. -/
def envHDRaise : Env := ⟨fsBoth, noErr, false, rootR, true, false, true, false, true, false, false⟩

/-- `std::filesystem::canonical(rootPath)` fails during the probe. -/
def envCanonErr : Env := ⟨fs0, noErr, true, rootR, true, false, true, false, false, false, false⟩

/-- Only the distribution marker `bio4.exe` is present, so the artifact
gets created. -/
def envCreate : Env :=
  ⟨(fun p => if p = bio4ExePath then some "marker" else none),
   noErr, false, rootR, true, false, true, false, false, false, false⟩

/-- `steam_appid.txt` already present with user content. -/
def envAppid : Env :=
  ⟨(fun p => if p = appidPath then some "999" else none),
   noErr, false, rootR, true, false, true, false, false, false, false⟩

/-- `Env` with the `pInput->init()` return value replaced. -/
def Env.setInputOk (e : Env) (b : Bool) : Env :=
  ⟨e.fs, e.fsErr, e.canonicalErr, e.rootParent, e.gameOk, e.createFails,
   b, e.inputInitRaises, e.hdProjectRaises, e.readConnectionRaises, e.hdFlag0⟩

/-- C1 counterexample: the attach entry point has no once-per-process
guard.  Running a second `DLL_PROCESS_ATTACH` against the state the
first run left performs the full sequence again (the trace is non-empty
and contains the `re4t::init::Game()` call), so a duplicate attach
notification is not a side-effect-free no-op. -/
theorem c1_counterexample :
    (secondAttach env0).trace ≠ [] ∧ Ev.gameInit ∈ (secondAttach env0).trace := by
  decide

/-- C1 amended: `DllMain` contains no re-entry guard — every invocation
with reason `DLL_PROCESS_ATTACH` performs the full attach work (in
particular it calls `re4t::init::Game()` again, also on a duplicate
attach); only invocations with a different reason code are
side-effect-free no-ops returning `true`. -/
theorem c1_attach_reruns (e : Env) (r : Reason) :
    Ev.gameInit ∈ (DllMain e .processAttach).trace ∧
    Ev.gameInit ∈ (secondAttach e).trace ∧
    (r ≠ Reason.processAttach →
      (DllMain e r).trace = [] ∧ (DllMain e r).fs = e.fs ∧ (DllMain e r).ret = true) := by
  refine ⟨?_, ?_, ?_⟩
  · simp [DllMain, wrapPhase, initMain_mem]
  · simp [secondAttach, DllMain, wrapPhase, initMain_mem]
  · intro hr
    cases r <;> simp_all [DllMain]

/-- C1 witness: concrete instance of `c1_attach_reruns` at `env0` and
`DLL_PROCESS_DETACH`. -/
theorem c1_witness :
    Reason.processDetach ≠ Reason.processAttach ∧
    Ev.gameInit ∈ (DllMain env0 .processAttach).trace ∧
    (DllMain env0 .processDetach).trace = [] :=
  ⟨by decide, (c1_attach_reruns env0 .processDetach).1,
   ((c1_attach_reruns env0 .processDetach).2.2 (by decide)).1⟩

/-- C2 counterexample: `pInput->init()` reporting failure through its
return value does not stop the sequence — the settings load
(`ReadConnection`) still runs. -/
theorem c2_counterexample :
    envNoInit.inputInitOk = false ∧
    Ev.inputInit ∈ (Init_Main envNoInit).trace ∧
    Ev.readConnection ∈ (Init_Main envNoInit).trace := by
  decide

/-- C2 amended: the configuration load runs exactly when the input
bring-up was invoked and did not throw; the boolean `pInput->init()`
returns is discarded, so the behaviour of `Init_Main` is independent of
it. -/
theorem c2_config_after_input (e : Env) (b : Bool) :
    (Ev.readConnection ∈ (Init_Main e).trace ↔
      (Ev.inputInit ∈ (Init_Main e).trace ∧ e.inputInitRaises = false)) ∧
    Init_Main (Env.setInputOk e b) = Init_Main e := by
  constructor
  · simp only [initMain_mem]
    simp
    tauto
  · rfl

/-- C3 counterexample: when the Fatal step 1 fails there is no `Failed`
terminal state observable to the host — `DllMain` returns `true`, the
same value it returns on a fully successful attach. -/
theorem c3_counterexample :
    (DllMain envGameFail .processAttach).ret = true ∧
    (DllMain envGameFail .processAttach).ret = (DllMain env0 .processAttach).ret := by
  decide

/-- C3 amended: when `re4t::init::Game()` fails, `Init_Main` returns
right away — the trace stops at the greeting log and the game probe (no
artifact write, no startup-fact logging, no variant activation, no input
or configuration call), the filesystem and flag are untouched and
nothing is thrown — but the entry point still returns `true`; no
distinct `Failed` state is reported. -/
theorem c3_fatal_stops_sequence (e : Env) (h : e.gameOk = false) :
    (DllMain e .processAttach).trace = wrapPhase ++ [Ev.conLogThanks, Ev.gameInit] ∧
    (DllMain e .processAttach).fs = e.fs ∧
    (DllMain e .processAttach).hdFlag = e.hdFlag0 ∧
    (DllMain e .processAttach).raised = false ∧
    (DllMain e .processAttach).ret = true := by
  simp [DllMain, initMain_eq_flat, initFlat, h, wrapPhase]

/-- C3 witness: concrete instance of `c3_fatal_stops_sequence`. -/
theorem c3_witness :
    envGameFail.gameOk = false ∧
    (DllMain envGameFail .processAttach).trace =
      wrapPhase ++ [Ev.conLogThanks, Ev.gameInit] :=
  ⟨by decide, (c3_fatal_stops_sequence envGameFail (by decide)).1⟩

/-- C8 counterexample: the caller cannot distinguish the two terminal
states — an attach whose Fatal step 1 failed returns exactly the same
value (`true`) as a fully successful attach. -/
theorem c8_counterexample :
    (DllMain envGameFail .processAttach).ret = true ∧
    (DllMain env0 .processAttach).ret = true ∧
    (DllMain envGameFail .processAttach).raised = false ∧
    (Init_Main envGameFail).trace ≠ (Init_Main env0).trace := by
  decide

/-- C8 amended: whenever `DllMain` returns at all (no exception escaped
it), it returns `true`, for every reason code and every outcome of the
steps; the return value carries no `Ready`/`Failed` distinction. -/
theorem c8_ret_constant (e : Env) (r : Reason)
    (h : (DllMain e r).raised = false) : (DllMain e r).ret = true := by
  cases r <;> simp [DllMain]

/-- C8 witness: concrete instance of `c8_ret_constant`. -/
theorem c8_witness :
    (DllMain env0 .processAttach).raised = false ∧
    (DllMain env0 .processAttach).ret = true :=
  ⟨by decide, c8_ret_constant env0 .processAttach (by decide)⟩

/-- C10: whenever the run changes the file at `steam_appid.txt`, the new
content is exactly `"254700"`, independently of every other oracle and
filesystem fact, so any two runs that create the artifact write
identical content. -/
theorem c10_artifact_content (e : Env)
    (h : (Init_Main e).fs appidPath ≠ e.fs appidPath) :
    (Init_Main e).fs appidPath = some "254700" := by
  rw [initMain_fs_app] at h ⊢
  by_cases hcr : created e = true <;> simp_all

/-- C10 witness: concrete instance of `c10_artifact_content` at an
environment where the artifact is created. -/
theorem c10_witness :
    (Init_Main envCreate).fs appidPath ≠ envCreate.fs appidPath ∧
    (Init_Main envCreate).fs appidPath = some "254700" :=
  ⟨by decide, c10_artifact_content envCreate (by decide)⟩

/-- C4: with the game probe successful, the flag initially clear and the
filesystem checks error-free, `bIsUsingHDProject` ends up `true` and the
`HDProject()` activation call happens if and only if both marker files
(`...\BIO4\snd\doorse012.xsb` and `...\BIO4\snd\doorse012.xwb`) are
present; if either is absent the step is skipped and no variant call is
made. -/
theorem c4_variant_iff_markers (e : Env)
    (hg : e.gameOk = true) (h0 : e.hdFlag0 = false)
    (hc : e.canonicalErr = false)
    (ha : e.fsErr appidPath = false) (hb : e.fsErr bio4ExePath = false)
    (h1 : e.fsErr (xsbPath e.rootParent) = false)
    (h2 : e.fsErr (xwbPath e.rootParent) = false) :
    ((Init_Main e).hdFlag = true ↔
      ((e.fs (xsbPath e.rootParent)).isSome = true ∧
       (e.fs (xwbPath e.rootParent)).isSome = true)) ∧
    (Ev.hdProject ∈ (Init_Main e).trace ↔
      ((e.fs (xsbPath e.rootParent)).isSome = true ∧
       (e.fs (xwbPath e.rootParent)).isSome = true)) := by
  constructor
  · rw [initMain_flag, probeHit_mainFs]
    unfold probeHit artAborts
    simp [hg, h0, hc, ha, hb, h1, h2]
  · rw [initMain_mem, probeHit_mainFs]
    unfold probeHit artAborts
    simp [hg, hc, ha, hb, h1, h2]

/-- C4 witness: concrete instance of `c4_variant_iff_markers` with both
markers present. -/
theorem c4_witness :
    (envHD.fs (xsbPath envHD.rootParent)).isSome = true ∧
    (envHD.fs (xwbPath envHD.rootParent)).isSome = true ∧
    (Init_Main envHD).hdFlag = true ∧ Ev.hdProject ∈ (Init_Main envHD).trace :=
  ⟨by decide, by decide,
   ((c4_variant_iff_markers envHD (by decide) (by decide) (by decide) (by decide)
      (by decide) (by decide) (by decide)).1).mpr ⟨by decide, by decide⟩,
   ((c4_variant_iff_markers envHD (by decide) (by decide) (by decide) (by decide)
      (by decide) (by decide) (by decide)).2).mpr ⟨by decide, by decide⟩⟩

/-- C5 counterexample: a filesystem error during the probe
(`canonical(rootPath)` failing) is not treated as "feature absent" — the
exception escapes `Init_Main` (nothing catches it there) and the rest of
the attach sequence, input bring-up included, never runs. -/
theorem c5_counterexample :
    envCanonErr.canonicalErr = true ∧
    (Init_Main envCanonErr).raised = true ∧
    Ev.inputInit ∉ (Init_Main envCanonErr).trace := by
  decide

/-- C5 amended: absence of a marker file yields the flag `false` without
error, but a filesystem access error during probing is not downgraded:
when `canonical(rootPath)` fails (and the earlier artifact checks do not
error), the exception escapes, the flag stays clear, and neither the
input bring-up nor the configuration load ever runs. -/
theorem c5_probe_error_escalates (e : Env)
    (hg : e.gameOk = true) (h0 : e.hdFlag0 = false)
    (ha : e.fsErr appidPath = false) (hb : e.fsErr bio4ExePath = false)
    (hc : e.canonicalErr = true) :
    (Init_Main e).raised = true ∧ (Init_Main e).hdFlag = false ∧
    Ev.inputInit ∉ (Init_Main e).trace ∧
    Ev.readConnection ∉ (Init_Main e).trace := by
  refine ⟨?_, ?_, ?_, ?_⟩
  · rw [initMain_raised]
    unfold probeAborts artAborts
    simp [hg, ha, hb, hc]
  · rw [initMain_flag]
    unfold probeHit
    simp [h0, hc]
  · rw [initMain_mem]
    unfold probeAborts
    simp [hc]
  · rw [initMain_mem]
    unfold probeAborts
    simp [hc]

/-- C5 witness: concrete instance of `c5_probe_error_escalates`. -/
theorem c5_witness :
    envCanonErr.canonicalErr = true ∧ (Init_Main envCanonErr).raised = true ∧
    Ev.readConnection ∉ (Init_Main envCanonErr).trace :=
  ⟨by decide,
   (c5_probe_error_escalates envCanonErr (by decide) (by decide) (by decide)
      (by decide) (by decide)).1,
   (c5_probe_error_escalates envCanonErr (by decide) (by decide) (by decide)
      (by decide) (by decide)).2.2.2⟩

/-- C9 counterexample: a throw inside the Soft variant-activation step
(`HDProject()`) prevents the later independent steps (input bring-up,
configuration load) from running, and the exception propagates out of
`Init_Main` — there is no per-step containment. -/
theorem c9_counterexample :
    envHDRaise.hdProjectRaises = true ∧
    (Init_Main envHDRaise).raised = true ∧
    Ev.inputInit ∉ (Init_Main envHDRaise).trace ∧
    Ev.readConnection ∉ (Init_Main envHDRaise).trace := by
  decide

/-- C9 amended: a Soft-step failure signalled without a C++ exception
(such as a failed artifact write or a `false` from `pInput->init()`)
does not stop later steps, but an exception thrown inside the Soft
variant-activation step aborts every later step and escapes the attach
sequence uncontained. -/
theorem c9_soft_raise_aborts (e : Env)
    (hg : e.gameOk = true)
    (ha : e.fsErr appidPath = false) (hb : e.fsErr bio4ExePath = false)
    (hc : e.canonicalErr = false)
    (h1 : e.fsErr (xsbPath e.rootParent) = false)
    (h2 : e.fsErr (xwbPath e.rootParent) = false)
    (hx : (e.fs (xsbPath e.rootParent)).isSome = true)
    (hw : (e.fs (xwbPath e.rootParent)).isSome = true) :
    (e.hdProjectRaises = true →
      (Init_Main e).raised = true ∧ Ev.inputInit ∉ (Init_Main e).trace ∧
      Ev.readConnection ∉ (Init_Main e).trace) ∧
    (e.hdProjectRaises = false →
      Ev.hdProject ∈ (Init_Main e).trace ∧ Ev.inputInit ∈ (Init_Main e).trace ∧
      (e.inputInitRaises = false → Ev.readConnection ∈ (Init_Main e).trace)) := by
  have hpa : probeAborts e (mainFs e) = e.hdProjectRaises := by
    rw [probeAborts_mainFs]
    unfold probeAborts probeHit
    simp [hc, h1, h2, hx, hw]
  have hph : probeHit e (mainFs e) = true := by
    rw [probeHit_mainFs]
    unfold probeHit
    simp [hc, h1, h2, hx, hw]
  constructor
  · intro hr
    refine ⟨?_, ?_, ?_⟩
    · rw [initMain_raised]
      simp [hg, hpa, hr]
    · rw [initMain_mem]
      simp [hpa, hr]
    · rw [initMain_mem]
      simp [hpa, hr]
  · intro hr
    refine ⟨?_, ?_, ?_⟩
    · rw [initMain_mem]
      unfold artAborts
      simp [hg, ha, hb, hph]
    · rw [initMain_mem]
      unfold artAborts
      simp [hg, ha, hb, hpa, hr]
    · intro hi
      rw [initMain_mem]
      unfold artAborts
      simp [hg, ha, hb, hpa, hr, hi]

/-- C9 witness: concrete instance of `c9_soft_raise_aborts` with
`HDProject()` throwing. -/
theorem c9_witness :
    envHDRaise.hdProjectRaises = true ∧
    (Init_Main envHDRaise).raised = true ∧
    Ev.readConnection ∉ (Init_Main envHDRaise).trace :=
  ⟨by decide,
   ((c9_soft_raise_aborts envHDRaise (by decide) (by decide) (by decide) (by decide)
      (by decide) (by decide) (by decide) (by decide)).1 (by decide)).1,
   ((c9_soft_raise_aborts envHDRaise (by decide) (by decide) (by decide) (by decide)
      (by decide) (by decide) (by decide) (by decide)).1 (by decide)).2.2⟩

/-- C6: first-run artifact provisioning is idempotent.  (a) If a file is
already at `steam_appid.txt` it is left byte-for-byte untouched and no
create happens; (b) the only change the run can make there is to create
the file with content `"254700"`, and only when it was absent and the
distribution marker `bio4.exe` is present; (c) a second attach run
against the state the first one left never alters the artifact. -/
theorem c6_artifact_idempotent (e : Env) :
    (∀ c, e.fs appidPath = some c →
      (Init_Main e).fs appidPath = some c ∧
      Ev.artifactCreate ∉ (Init_Main e).trace) ∧
    ((Init_Main e).fs appidPath ≠ e.fs appidPath →
      ((Init_Main e).fs appidPath = some "254700" ∧ e.fs appidPath = none ∧
       (e.fs bio4ExePath).isSome = true)) ∧
    (Init_Main (secondEnv e)).fs appidPath = (Init_Main e).fs appidPath := by
  refine ⟨?_, ?_, ?_⟩
  · intro c hc
    have hcr : created e = false := by
      unfold created
      simp [hc]
    constructor
    · rw [initMain_fs_app]
      simp [hcr, hc]
    · rw [initMain_mem]
      simp [hcr]
  · intro hne
    rw [initMain_fs_app] at hne ⊢
    by_cases hcr : created e = true
    · have hs := hcr
      unfold created at hs
      simp only [Bool.and_eq_true, Bool.not_eq_true'] at hs
      obtain ⟨⟨⟨⟨⟨hgame, herrA⟩, habs⟩, herrB⟩, hbio⟩, hcf⟩ := hs
      refine ⟨by simp [hcr], ?_, hbio⟩
      exact Option.not_isSome_iff_eq_none.mp (by simp [habs])
    · simp [hcr] at hne
  · have hthis : (secondEnv e).fs = (Init_Main e).fs := rfl
    by_cases hcr : created e = true
    · have h1 : (Init_Main e).fs appidPath = some "254700" := by
        rw [initMain_fs_app]; simp [hcr]
      have h2 : created (secondEnv e) = false := by
        unfold created secondEnv
        simp [h1]
      rw [initMain_fs_app (secondEnv e), hthis]
      simp [h2]
    · have ha2 : (Init_Main e).fs appidPath = e.fs appidPath := by
        rw [initMain_fs_app]; simp [hcr]
      have hb2 : (Init_Main e).fs bio4ExePath = e.fs bio4ExePath := by
        rw [initMain_fs_app]; simp [bio4_ne_appid]
      have h2 : created (secondEnv e) = created e := by
        unfold created
        simp only [secondEnv]
        rw [ha2, hb2]
      have h2f : created (secondEnv e) = false := by
        rw [h2]; simpa using hcr
      rw [initMain_fs_app (secondEnv e), hthis]
      simp [h2f]

/-- C6 witness: concrete instance of `c6_artifact_idempotent` at an
environment whose artifact file already holds user content `"999"`. -/
theorem c6_witness :
    envAppid.fs appidPath = some "999" ∧
    (Init_Main envAppid).fs appidPath = some "999" ∧
    (Init_Main (secondEnv envAppid)).fs appidPath = (Init_Main envAppid).fs appidPath :=
  ⟨by decide, ((c6_artifact_idempotent envAppid).1 "999" (by decide)).1,
   (c6_artifact_idempotent envAppid).2.2⟩

/-- C7 counterexample: the exception handler is not installed before
anything else runs — on attach, the module-handle store and
`Init_Wrappers()` both execute before `re4t::init::ExceptionHandler()`
(it is third in the trace, not first). -/
theorem c7_counterexample :
    (DllMain env0 .processAttach).trace.take 2 =
      [Ev.storeModuleHandle, Ev.initWrappers] ∧
    (DllMain env0 .processAttach).trace.head? ≠ some Ev.exceptionHandler := by
  decide

/-- No `Init_Main` event coincides with the three attach-preamble
events. -/
theorem initMain_not_preamble (e : Env) (v : Ev) (h : v ∈ (Init_Main e).trace) :
    v ≠ Ev.storeModuleHandle ∧ v ≠ Ev.initWrappers ∧ v ≠ Ev.exceptionHandler := by
  rw [initMain_mem] at h
  cases v <;> simp_all

/-- C7 amended: the exception handler is installed after the
module-handle store and `Init_Wrappers()`, but before `Init_Main` — so
it strictly precedes the Environment Probe and every registry step
(every event of `Init_Main`) in the attach trace. -/
theorem c7_handler_precedes_steps (e : Env) (v : Ev)
    (hv : v ∈ (Init_Main e).trace) :
    (DllMain e .processAttach).trace.indexOf Ev.exceptionHandler <
      (DllMain e .processAttach).trace.indexOf v := by
  obtain ⟨hn1, hn2, hn3⟩ := initMain_not_preamble e v hv
  show (wrapPhase ++ (Init_Main e).trace).indexOf Ev.exceptionHandler <
    (wrapPhase ++ (Init_Main e).trace).indexOf v
  rw [wrapPhase]
  simp only [List.cons_append, List.nil_append]
  rw [List.indexOf_cons_ne _ (by decide : Ev.storeModuleHandle ≠ Ev.exceptionHandler),
      List.indexOf_cons_ne _ (by decide : Ev.initWrappers ≠ Ev.exceptionHandler),
      List.indexOf_cons_self,
      List.indexOf_cons_ne _ (Ne.symm hn1),
      List.indexOf_cons_ne _ (Ne.symm hn2),
      List.indexOf_cons_ne _ (Ne.symm hn3)]
  omega

/-- C7 witness: concrete instance of `c7_handler_precedes_steps` at the
game-probe event. -/
theorem c7_witness :
    Ev.gameInit ∈ (Init_Main env0).trace ∧
    (DllMain env0 .processAttach).trace.indexOf Ev.exceptionHandler <
      (DllMain env0 .processAttach).trace.indexOf Ev.gameInit :=
  ⟨by decide, c7_handler_precedes_steps env0 Ev.gameInit (by decide)⟩
